import Mathlib

/-!
Verification of the hand-gesture particle engine.

Shallow embedding of the repository's gesture classifier
(`src/unnamed/part_000`, a.k.a. `gestureUtils`), the interaction-mode
resolution and particle-update logic of `src/components/ParticleField.tsx`,
and the glyph point-cloud generator `generateTextParticles`.

Numbers: landmark coordinates and all pixel/viewport arithmetic are modelled
over `ℚ` (JS numbers, exact); values produced through `Math.sqrt`, `Math.sin`
and `Math.cos` live in `ℝ`.  The source's `distance` computes a square root
and is used only in `>` comparisons, which `Real.sqrt` preserves
(lemma `distance_gt_iff`), so the executable classifier compares squared
distances.  JS out-of-bounds landmark access (`undefined.x`, a thrown
TypeError) is modelled by `Option`: `none` means the frame handler raises.
-/

namespace Syf

/-- A hand landmark: one 3-D keypoint, `{x, y, z}` (source `HandLandmark`). -/
structure Landmark where
  x : ℚ
  y : ℚ
  z : ℚ
  deriving DecidableEq

/-- A hand as delivered by the detector: a list of landmarks.  A valid hand
has exactly 21 of them. -/
abbrev Hand := List Landmark

/-- Squared Euclidean distance between two landmarks.  The source `distance`
returns `Math.sqrt` of this value; it is consumed only by `>` comparisons,
which the square root preserves (`distance_gt_iff`). -/
def dist2 (a b : Landmark) : ℚ :=
  (a.x - b.x) ^ 2 + (a.y - b.y) ^ 2 + (a.z - b.z) ^ 2

/-- The source's `distance`: `Math.sqrt` of the sum of squared coordinate
differences. -/
noncomputable def distance (a b : Landmark) : ℝ :=
  Real.sqrt ((dist2 a b : ℚ) : ℝ)

theorem dist2_nonneg (a b : Landmark) : 0 ≤ dist2 a b := by
  unfold dist2; positivity

/-- Comparing the source's square-rooted distances is the same as comparing
the squared distances. -/
theorem distance_gt_iff (a b c d : Landmark) :
    distance a b > distance c d ↔ dist2 a b > dist2 c d := by
  unfold distance
  rw [gt_iff_lt, Real.sqrt_lt_sqrt_iff (by exact_mod_cast dist2_nonneg c d)]
  exact_mod_cast Iff.rfl

/-- List lookup as the frame code performs it on a *valid* hand
(`hand[i]` in JS).  For a valid 21-landmark hand every index the engine
uses is in range, so the default is never taken; fallible access is
modelled separately by `List.get?` where the source can actually go out
of bounds. -/
def nth (hand : Hand) (i : ℕ) : Landmark :=
  hand.getD i ⟨0, 0, 0⟩

/-- `isFingerExtended` from the source, with JS out-of-range access
(`undefined` landmark, thrown TypeError on `.x`) modelled as `none`:
tip is extended iff it is farther from the wrist than the pivot joint. -/
def isFingerExtended (landmarks : Hand) (tipIdx pipIdx : ℕ) : Option Bool :=
  (landmarks.get? 0).bind fun wrist =>
  (landmarks.get? tipIdx).bind fun tip =>
  (landmarks.get? pipIdx).bind fun pip =>
  some (decide (dist2 wrist tip > dist2 wrist pip))

/-- The label rules of `detectGesture` (source lines 30-46), given the five
finger-extension booleans: count the open fingers, then test the rules in
source order, first match winning. -/
def gestureLabel (thumbOpen indexOpen middleOpen ringOpen pinkyOpen : Bool) : String :=
  let openCount := [thumbOpen, indexOpen, middleOpen, ringOpen, pinkyOpen].countP (fun b => b)
  if openCount = 5 then "5"
  else if indexOpen ∧ ¬middleOpen ∧ ¬ringOpen ∧ ¬pinkyOpen then "1"
  else if indexOpen ∧ middleOpen ∧ ¬ringOpen ∧ ¬pinkyOpen then "2"
  else if openCount ≤ 1 ∧ ¬indexOpen then "fist"
  else "unknown"

/-- `detectGesture` from the source.  An empty (or missing) landmark list is
answered with `"unknown"`; otherwise the five per-finger tests run with the
source's tip/pivot index pairs — thumb `(4,2)`, index `(8,6)`, middle
`(12,10)`, ring `(16,14)`, pinky `(20,18)` — and `none` records the thrown
TypeError of an out-of-bounds access. -/
def detectGesture (landmarks : Hand) : Option String :=
  if landmarks.length = 0 then some "unknown"
  else
    (isFingerExtended landmarks 4 2).bind fun thumbOpen =>
    (isFingerExtended landmarks 8 6).bind fun indexOpen =>
    (isFingerExtended landmarks 12 10).bind fun middleOpen =>
    (isFingerExtended landmarks 16 14).bind fun ringOpen =>
    (isFingerExtended landmarks 20 18).bind fun pinkyOpen =>
    some (gestureLabel thumbOpen indexOpen middleOpen ringOpen pinkyOpen)

/-- Total finger-extension test, valid-hand fast path of `isFingerExtended`. -/
def isFingerExtendedT (landmarks : Hand) (tipIdx pipIdx : ℕ) : Bool :=
  decide (dist2 (nth landmarks 0) (nth landmarks tipIdx) >
          dist2 (nth landmarks 0) (nth landmarks pipIdx))

/-- Total classifier, the value `detectGesture` yields on a valid hand. -/
def detectGestureT (landmarks : Hand) : String :=
  gestureLabel (isFingerExtendedT landmarks 4 2) (isFingerExtendedT landmarks 8 6)
    (isFingerExtendedT landmarks 12 10) (isFingerExtendedT landmarks 16 14)
    (isFingerExtendedT landmarks 20 18)

theorem get?_eq_nth (l : Hand) (i : ℕ) (h : i < l.length) :
    l.get? i = some (nth l i) := by
  rcases e : l.get? i with _ | v
  · exact absurd (List.get?_eq_none.mp e) (by omega)
  · rw [List.get?_eq_getElem?] at e
    simp [nth, List.getD_eq_getElem?_getD, e]

theorem isFingerExtended_eq_total (l : Hand) (t p : ℕ)
    (hl : 0 < l.length) (ht : t < l.length) (hp : p < l.length) :
    isFingerExtended l t p = some (isFingerExtendedT l t p) := by
  unfold isFingerExtended isFingerExtendedT
  rw [get?_eq_nth l 0 hl, get?_eq_nth l t ht, get?_eq_nth l p hp]
  rfl

/-- On a valid 21-landmark hand the classifier never raises: it returns the
total classification. -/
theorem detectGesture_eq_total (l : Hand) (h : l.length = 21) :
    detectGesture l = some (detectGestureT l) := by
  unfold detectGesture
  rw [if_neg (by omega)]
  rw [isFingerExtended_eq_total l 4 2 (by omega) (by omega) (by omega),
      isFingerExtended_eq_total l 8 6 (by omega) (by omega) (by omega),
      isFingerExtended_eq_total l 12 10 (by omega) (by omega) (by omega),
      isFingerExtended_eq_total l 16 14 (by omega) (by omega) (by omega),
      isFingerExtended_eq_total l 20 18 (by omega) (by omega) (by omega)]
  rfl

/-! ### The specification's classification procedure (for claim C1)

Stated independently from the spec's
words: extension compares the square-rooted `distance` from the wrist, the
pivot is the PIP joint (6/10/14/18) for index/middle/ring/pinky and the
MCP-equivalent joint (2) for the thumb, and the precedence rules are
five / one / two / fist / unknown. -/

/-- The spec's abstract gesture labels. -/
inductive SpecLabel where
  | five
  | one
  | two
  | fist
  | unknown
  deriving DecidableEq

/-- The string the engine uses for each spec label. -/
def labelString : SpecLabel → String
  | .five => "5"
  | .one => "1"
  | .two => "2"
  | .fist => "fist"
  | .unknown => "unknown"

/-- Spec reading of finger extension: the square-rooted distance from the
wrist to the tip exceeds the one from the wrist to the pivot joint. -/
def specExtended (hand : Hand) (tipIdx pivotIdx : ℕ) : Prop :=
  distance (nth hand 0) (nth hand tipIdx) > distance (nth hand 0) (nth hand pivotIdx)

instance (hand : Hand) (t p : ℕ) : Decidable (specExtended hand t p) :=
  decidable_of_iff _ (distance_gt_iff (nth hand 0) (nth hand t) (nth hand 0) (nth hand p)).symm

/-- Number of extended fingers under the spec's test (thumb pivot 2, PIP
pivots 6/10/14/18). -/
def specOpenCount (hand : Hand) : ℕ :=
  (if specExtended hand 4 2 then 1 else 0) + (if specExtended hand 8 6 then 1 else 0) +
  (if specExtended hand 12 10 then 1 else 0) + (if specExtended hand 16 14 then 1 else 0) +
  (if specExtended hand 20 18 then 1 else 0)

/-- The classification procedure exactly as the claim states it, rules in
precedence order with first match winning. -/
def specClassify (hand : Hand) : SpecLabel :=
  if specOpenCount hand = 5 then .five
  else if specExtended hand 8 6 ∧ ¬specExtended hand 12 10 ∧
          ¬specExtended hand 16 14 ∧ ¬specExtended hand 20 18 then .one
  else if specExtended hand 8 6 ∧ specExtended hand 12 10 ∧
          ¬specExtended hand 16 14 ∧ ¬specExtended hand 20 18 then .two
  else if specOpenCount hand ≤ 1 ∧ ¬specExtended hand 8 6 then .fist
  else .unknown

theorem specExtended_iff_total (hand : Hand) (t p : ℕ) :
    specExtended hand t p ↔ isFingerExtendedT hand t p = true := by
  unfold isFingerExtendedT
  rw [decide_eq_true_eq]
  exact distance_gt_iff (nth hand 0) (nth hand t) (nth hand 0) (nth hand p)

/-- The label rules agree with the spec's rules for every combination of the
five finger booleans. -/
theorem gestureLabel_eq_spec (b1 b2 b3 b4 b5 : Bool) :
    gestureLabel b1 b2 b3 b4 b5 =
      labelString
        (if (if b1 then 1 else 0) + (if b2 then 1 else 0) + (if b3 then 1 else 0) +
            (if b4 then 1 else 0) + (if b5 then 1 else 0) = 5 then SpecLabel.five
         else if b2 ∧ ¬b3 ∧ ¬b4 ∧ ¬b5 then SpecLabel.one
         else if b2 ∧ b3 ∧ ¬b4 ∧ ¬b5 then SpecLabel.two
         else if (if b1 then 1 else 0) + (if b2 then 1 else 0) + (if b3 then 1 else 0) +
            (if b4 then 1 else 0) + (if b5 then 1 else 0) ≤ 1 ∧ ¬b2 then SpecLabel.fist
         else SpecLabel.unknown) := by
  cases b1 <;> cases b2 <;> cases b3 <;> cases b4 <;> cases b5 <;> rfl

/-- Claim C1. For every hand of exactly 21 landmarks, `detectGesture` returns
exactly the label computed by the claim's procedure: a finger is extended
iff `distance(wrist, tip) > distance(wrist, pivot)` with the PIP pivot for
index/middle/ring/pinky and the index-2 pivot for the thumb, and the rules
`openCount = 5 → five`, `one`, `two`, `fist`, `unknown` are tested in
precedence order with first match winning. -/
theorem c1_classifier_follows_spec (hand : Hand) (h : hand.length = 21) :
    detectGesture hand = some (labelString (specClassify hand)) := by
  rw [detectGesture_eq_total hand h]
  refine congrArg some ?_
  unfold detectGestureT specClassify specOpenCount
  rw [gestureLabel_eq_spec]
  have e1 := specExtended_iff_total hand 4 2
  have e2 := specExtended_iff_total hand 8 6
  have e3 := specExtended_iff_total hand 12 10
  have e4 := specExtended_iff_total hand 16 14
  have e5 := specExtended_iff_total hand 20 18
  by_cases h1 : specExtended hand 4 2 <;> by_cases h2 : specExtended hand 8 6 <;>
    by_cases h3 : specExtended hand 12 10 <;> by_cases h4 : specExtended hand 16 14 <;>
    by_cases h5 : specExtended hand 20 18 <;>
    simp_all

/-- A sample fully-open hand: landmark `i` at `(i, 0, 0)`, every tip farther
from the wrist than its pivot. -/
def openHand : Hand :=
  (List.range 21).map (fun i => ⟨(i : ℚ), 0, 0⟩)

/-- Witness for C1: the theorem applies to the concrete 21-landmark
fully-open hand. -/
theorem c1_classifier_follows_spec_witness :
    openHand.length = 21 ∧
      detectGesture openHand = some (labelString (specClassify openHand)) :=
  ⟨by decide, c1_classifier_follows_spec openHand (by decide)⟩

/-! ### Claim C2: malformed (wrong-length) hands -/

/-- Claim C2, counterexample. A non-empty hand with the wrong landmark count is
*not* answered with `"unknown"`: for a single-landmark hand the classifier's
access to landmark 4 goes out of bounds (`undefined.x`, a thrown TypeError in
JS, modelled as `none`), so classification does not complete. -/
theorem c2_short_hand_raises_counterexample :
    detectGesture [(⟨0, 0, 0⟩ : Landmark)] = none ∧
      ([(⟨0, 0, 0⟩ : Landmark)] : Hand).length ≠ 21 := by
  constructor
  · rfl
  · decide

/-- Claim C2, amended. Only an *empty* landmark list is treated as "no gesture"
(`"unknown"`, without error); a non-empty list of 1 to 20 landmarks makes the
classifier read landmarks past the end of the list (the pinky test reads
index 20), which raises in JS instead of returning a label. -/
theorem c2_wrong_length_amended (l : Hand) :
    (l.length = 0 → detectGesture l = some "unknown") ∧
      (1 ≤ l.length → l.length ≤ 20 → detectGesture l = none) := by
  constructor
  · intro h
    unfold detectGesture
    rw [if_pos h]
  · intro h1 h20
    have hp : isFingerExtended l 20 18 = none := by
      unfold isFingerExtended
      have h0 : l.get? 0 = some (nth l 0) := get?_eq_nth l 0 (by omega)
      have h20' : l.get? 20 = none := List.get?_eq_none.mpr (by omega)
      rw [h0, h20']
      rfl
    unfold detectGesture
    rw [if_neg (by omega)]
    rcases isFingerExtended l 4 2 with _ | b1
    · rfl
    rcases isFingerExtended l 8 6 with _ | b2
    · rfl
    rcases isFingerExtended l 12 10 with _ | b3
    · rfl
    rcases isFingerExtended l 16 14 with _ | b4
    · rfl
    rw [hp]
    rfl

/-- Witness for C2's amended theorem at a concrete one-landmark hand. -/
theorem c2_wrong_length_amended_witness :
    1 ≤ ([(⟨0, 0, 0⟩ : Landmark)] : Hand).length ∧
      ([(⟨0, 0, 0⟩ : Landmark)] : Hand).length ≤ 20 ∧
      detectGesture [(⟨0, 0, 0⟩ : Landmark)] = none :=
  ⟨by decide, by decide,
    (c2_wrong_length_amended [(⟨0, 0, 0⟩ : Landmark)]).2 (by decide) (by decide)⟩

/-! ### Interaction mode resolution (`ParticleField.tsx`, `useFrame` lines 81-209)

The per-frame state analysis of `useFrame` as a pure function of the hand
observation, the user colour and the viewport.  Group-rotation side effects
(`groupRef.current.rotation.y += ...`) are cross-frame accumulators that no
claim references and are not modelled.  All resolver theorems carry the
21-landmark validity hypothesis under which the JS landmark accesses
`hand[0]`, `hand[5]`, `hand[17]` (and those of `detectGesture`) are in
bounds, so the total `nth`/`getD` embedding is faithful there. -/

/-- The source's `AppState` enum. -/
inductive AppState where
  | IDLE
  | INTERACTIVE
  | TEXT_MODE
  deriving DecidableEq

/-- An RGB colour with components in `[0,1]` (a `THREE.Color`). -/
structure Color where
  r : ℚ
  g : ℚ
  b : ℚ
  deriving DecidableEq

/-- `#00FFFF`, the idle hue. -/
def cyan : Color := ⟨0, 1, 1⟩

/-- `#FF0000`. -/
def red : Color := ⟨1, 0, 0⟩

/-- `#FFFFFF`. -/
def white : Color := ⟨1, 1, 1⟩

/-- One glyph point cloud: the flat `Float32Array` of the generator, read as
the list of its `(x, y, z)` triples. -/
abbrev Cloud := List (ℚ × ℚ × ℚ)

/-- The `textGeometries` cache: one generated cloud per phrase key
(`HELLO` / `YUFU` / `WITHME` / `PHOTO`). -/
structure TextGeometries where
  hello : Cloud
  yufu : Cloud
  withme : Cloud
  photo : Cloud

/-- One entry of `worldHands`: palm centroid mapped to world space (mirror
inverted), the raw horizontal centroid, and the hand's gesture label. -/
structure WorldHand where
  x : ℚ
  y : ℚ
  rawX : ℚ
  gesture : String

/-- The `worldHands` mapping of the source: centroid of landmarks 0, 5, 17,
mirrored into viewport coordinates, plus the detected gesture. -/
def worldHand (vw vh : ℚ) (hand : Hand) : WorldHand :=
  let cx := (nth hand 0).x + (nth hand 5).x + (nth hand 17).x
  let cy := (nth hand 0).y + (nth hand 5).y + (nth hand 17).y
  { x := (0.5 - cx / 3) * vw
    y := (0.5 - cy / 3) * vh
    rawX := cx / 3
    gesture := (detectGesture hand).getD "unknown" }

/-- Squared palm size of the one-hand openness computation:
`(l[0].x - l[5].x)^2 + (l[0].y - l[5].y)^2` (the source takes its
`Math.sqrt`). -/
def palmSize2 (hand : Hand) : ℚ :=
  ((nth hand 0).x - (nth hand 5).x) ^ 2 + ((nth hand 0).y - (nth hand 5).y) ^ 2

/-- `palmSize` of the source: `Math.sqrt` of `palmSize2`. -/
noncomputable def palmSize (hand : Hand) : ℝ :=
  Real.sqrt ((palmSize2 hand : ℚ) : ℝ)

/-- Squared thumb-to-pinky spread: `(l[4].x - l[20].x)^2 + (l[4].y - l[20].y)^2`. -/
def spread2 (hand : Hand) : ℚ :=
  ((nth hand 4).x - (nth hand 20).x) ^ 2 + ((nth hand 4).y - (nth hand 20).y) ^ 2

/-- `spread` of the source: `Math.sqrt` of `spread2`. -/
noncomputable def handSpread (hand : Hand) : ℝ :=
  Real.sqrt ((spread2 hand : ℚ) : ℝ)

/-- The source's openness ratio `spread / palmSize`.  The division is taken
as written — no epsilon floor is applied to the denominator. -/
noncomputable def spreadOverPalm (hand : Hand) : ℝ :=
  handSpread hand / palmSize hand

/-- `normalizedOpen`: the ratio clamped from `[1, 3]` into `[0, 1]`. -/
noncomputable def normalizedOpen (hand : Hand) : ℝ :=
  min (max ((spreadOverPalm hand - 1.0) / 2.0) 0) 1

/-- The resolver's per-frame outputs: visual mode, active glyph cloud,
target colour, rotation speed and diffusion. -/
structure ResolveResult where
  mode : AppState
  activeText : Option Cloud
  targetColor : Color
  rotationSpeed : ℝ
  diffusion : ℝ

/-- The frame's mode resolution (`useFrame` lines 85-185) as a pure
function.  Defaults: user colour, `IDLE`, rotation speed `0.2`, diffusion
`1.0`.  One hand: gesture `"5"` enters text mode with the `HELLO` cloud,
anything else is interactive with openness-derived diffusion and rotation
speed.  Two hands: the matched pairs `"1"`/`"1"`, `"2"`/`"2"`, `"5"`/`"5"`
enter text mode with the `YUFU` / `WITHME` / `PHOTO` cloud respectively;
otherwise interactive with the centroid-distance colour.  Zero hands: the
target colour is set to `#00FFFF`.  More than two hands match neither
branch, so every default stands. -/
noncomputable def resolve (tg : TextGeometries) (userColor : Color) (vw vh : ℚ)
    (hands : List Hand) : ResolveResult :=
  let wh := hands.map (worldHand vw vh)
  let dflt : WorldHand := ⟨0, 0, 0, "unknown"⟩
  if hands.length > 0 then
    if hands.length = 1 then
      let h := wh.getD 0 dflt
      if h.gesture = "5" then
        { mode := AppState.TEXT_MODE, activeText := some tg.hello,
          targetColor := userColor, rotationSpeed := 0.2, diffusion := 1.0 }
      else
        { mode := AppState.INTERACTIVE, activeText := none,
          targetColor := userColor,
          rotationSpeed := 0.2 + normalizedOpen (hands.getD 0 []) * 2.0,
          diffusion := 1.0 + normalizedOpen (hands.getD 0 []) * 3.0 }
    else if hands.length = 2 then
      let g1 := (wh.getD 0 dflt).gesture
      let g2 := (wh.getD 1 dflt).gesture
      if g1 = "1" ∧ g2 = "1" then
        { mode := AppState.TEXT_MODE, activeText := some tg.yufu,
          targetColor := userColor, rotationSpeed := 0.2, diffusion := 1.0 }
      else if g1 = "2" ∧ g2 = "2" then
        { mode := AppState.TEXT_MODE, activeText := some tg.withme,
          targetColor := userColor, rotationSpeed := 0.2, diffusion := 1.0 }
      else if g1 = "5" ∧ g2 = "5" then
        { mode := AppState.TEXT_MODE, activeText := some tg.photo,
          targetColor := userColor, rotationSpeed := 0.2, diffusion := 1.0 }
      else
        let avgDist := (|(wh.getD 0 dflt).x| + |(wh.getD 0 dflt).y| +
          |(wh.getD 1 dflt).x| + |(wh.getD 1 dflt).y|) / 4
        { mode := AppState.INTERACTIVE, activeText := none,
          targetColor := if avgDist < 3.5 then white
            else if avgDist < 8 then red else cyan,
          rotationSpeed := 0.2, diffusion := 1.0 }
    else
      { mode := AppState.IDLE, activeText := none, targetColor := userColor,
        rotationSpeed := 0.2, diffusion := 1.0 }
  else
    { mode := AppState.IDLE, activeText := none, targetColor := cyan,
      rotationSpeed := 0.2, diffusion := 1.0 }

/-- Claim C3. For an observation of exactly two valid hands: both hands
classifying `"5"` resolves to text mode with the `PHOTO` cloud, both `"1"`
to text mode with the `YUFU` cloud, both `"2"` to text mode with the
`WITHME` cloud, and these matched pairs are the *only* two-hand
combinations that enter text mode. -/
theorem c3_two_hand_text_triggers (tg : TextGeometries) (uc : Color) (vw vh : ℚ)
    (h1 h2 : Hand) (v1 : h1.length = 21) (v2 : h2.length = 21) :
    ((detectGesture h1 = some "5" ∧ detectGesture h2 = some "5") →
        (resolve tg uc vw vh [h1, h2]).mode = AppState.TEXT_MODE ∧
        (resolve tg uc vw vh [h1, h2]).activeText = some tg.photo) ∧
    ((detectGesture h1 = some "1" ∧ detectGesture h2 = some "1") →
        (resolve tg uc vw vh [h1, h2]).mode = AppState.TEXT_MODE ∧
        (resolve tg uc vw vh [h1, h2]).activeText = some tg.yufu) ∧
    ((detectGesture h1 = some "2" ∧ detectGesture h2 = some "2") →
        (resolve tg uc vw vh [h1, h2]).mode = AppState.TEXT_MODE ∧
        (resolve tg uc vw vh [h1, h2]).activeText = some tg.withme) ∧
    ((resolve tg uc vw vh [h1, h2]).mode = AppState.TEXT_MODE →
        (detectGesture h1 = some "1" ∧ detectGesture h2 = some "1") ∨
        (detectGesture h1 = some "2" ∧ detectGesture h2 = some "2") ∨
        (detectGesture h1 = some "5" ∧ detectGesture h2 = some "5")) := by
  have e1 := detectGesture_eq_total h1 v1
  have e2 := detectGesture_eq_total h2 v2
  refine ⟨?_, ?_, ?_, ?_⟩
  · rintro ⟨hd1, hd2⟩
    constructor <;> simp [resolve, worldHand, hd1, hd2]
  · rintro ⟨hd1, hd2⟩
    constructor <;> simp [resolve, worldHand, hd1, hd2]
  · rintro ⟨hd1, hd2⟩
    constructor <;> simp [resolve, worldHand, hd1, hd2]
  · intro hm
    by_cases c1 : (detectGesture h1).getD "unknown" = "1" ∧
        (detectGesture h2).getD "unknown" = "1"
    · left
      rw [e1, e2]
      rw [e1] at c1
      rw [e2] at c1
      exact ⟨congrArg some c1.1, congrArg some c1.2⟩
    · by_cases c2 : (detectGesture h1).getD "unknown" = "2" ∧
          (detectGesture h2).getD "unknown" = "2"
      · right; left
        rw [e1, e2]
        rw [e1] at c2
        rw [e2] at c2
        exact ⟨congrArg some c2.1, congrArg some c2.2⟩
      · by_cases c5 : (detectGesture h1).getD "unknown" = "5" ∧
            (detectGesture h2).getD "unknown" = "5"
        · right; right
          rw [e1, e2]
          rw [e1] at c5
          rw [e2] at c5
          exact ⟨congrArg some c5.1, congrArg some c5.2⟩
        · exfalso
          simp [resolve, worldHand, c1, c2, c5] at hm

/-- Two concrete valid hands whose gestures are `"5"` (all fingers
extended), for the C3 witness. -/
theorem c3_two_hand_text_triggers_witness :
    openHand.length = 21 ∧
      ((detectGesture openHand = some "5" ∧ detectGesture openHand = some "5") →
        (resolve ⟨[], [], [], []⟩ cyan 10 10 [openHand, openHand]).mode = AppState.TEXT_MODE ∧
        (resolve ⟨[], [], [], []⟩ cyan 10 10 [openHand, openHand]).activeText =
          some (TextGeometries.photo ⟨[], [], [], []⟩)) :=
  ⟨by decide,
    (c3_two_hand_text_triggers ⟨[], [], [], []⟩ cyan 10 10 openHand openHand
      (by decide) (by decide)).1⟩

/-- Claim C4, counterexample. With zero hands the resolved colour target is
*not* the user-selected base colour: for a user colour of red the frame sets
the target to the fixed idle cyan instead. -/
theorem c4_idle_color_counterexample :
    (resolve ⟨[], [], [], []⟩ red 10 10 []).targetColor ≠ red := by
  decide

/-- Claim C4, amended. On a zero-hand frame the resolver is in `IDLE` mode and
the colour target is the fixed idle hue `#00FFFF`, for every user-selected
colour (the user colour is only the default when hands are present). -/
theorem c4_idle_color_amended (tg : TextGeometries) (uc : Color) (vw vh : ℚ) :
    (resolve tg uc vw vh []).mode = AppState.IDLE ∧
      (resolve tg uc vw vh []).targetColor = cyan :=
  ⟨rfl, rfl⟩

/-- A valid hand with every landmark at the origin; it classifies as
`"fist"`. -/
def zeroHand : Hand :=
  List.replicate 21 ⟨0, 0, 0⟩

theorem nth_zeroHand (i : ℕ) : nth zeroHand i = ⟨0, 0, 0⟩ := by
  unfold nth zeroHand
  rcases lt_or_le i 21 with h | h
  · rw [List.getD_eq_getElem?_getD, List.getElem?_replicate, if_pos h]
    rfl
  · rw [List.getD_eq_getElem?_getD, List.getElem?_eq_none (by simpa using h)]
    rfl

/-- The all-zero hand classifies as a fist: no finger's tip is strictly
farther from the wrist than its pivot. -/
theorem detectGesture_zeroHand : detectGesture zeroHand = some "fist" := by
  rw [detectGesture_eq_total zeroHand (by decide)]
  refine congrArg some ?_
  have hext : ∀ t p : ℕ, isFingerExtendedT zeroHand t p = false := by
    intro t p
    rw [isFingerExtendedT, nth_zeroHand, nth_zeroHand, nth_zeroHand]
    simp [dist2]
  unfold detectGestureT
  rw [hext, hext, hext, hext, hext]
  rfl

/-- Claim C5, counterexample. An observation of three valid hands does *not*
behave as the two-hand logic on the first two: the same first two hands
alone resolve to a different visual mode (interactive) than the three-hand
observation does (idle). -/
theorem c5_more_than_two_hands_counterexample :
    (resolve ⟨[], [], [], []⟩ cyan 10 10 [zeroHand, zeroHand, zeroHand]).mode ≠
      (resolve ⟨[], [], [], []⟩ cyan 10 10 [zeroHand, zeroHand]).mode := by
  have h3 : (resolve ⟨[], [], [], []⟩ cyan 10 10 [zeroHand, zeroHand, zeroHand]).mode =
      AppState.IDLE := by
    simp only [resolve, List.length_cons, List.length_nil]
    rw [if_pos (by omega), if_neg (by omega), if_neg (by omega)]
  have h2 : (resolve ⟨[], [], [], []⟩ cyan 10 10 [zeroHand, zeroHand]).mode =
      AppState.INTERACTIVE := by
    simp [resolve, worldHand, detectGesture_zeroHand]
  rw [h3, h2]
  decide

/-- Claim C5, amended. An observation of more than two valid hands matches
neither the one-hand nor the two-hand branch, so every default stands: the
mode stays `IDLE`, no glyph cloud is active, the colour target stays the
user colour (unlike the zero-hand frame, which overrides it to cyan), and
rotation speed and diffusion keep their defaults. -/
theorem c5_more_than_two_hands_amended (tg : TextGeometries) (uc : Color)
    (vw vh : ℚ) (hands : List Hand) (hlen : 2 < hands.length)
    (hvalid : ∀ h ∈ hands, h.length = 21) :
    resolve tg uc vw vh hands =
      { mode := AppState.IDLE, activeText := none, targetColor := uc,
        rotationSpeed := 0.2, diffusion := 1.0 } := by
  simp only [resolve, List.length_cons]
  rw [if_pos (by omega), if_neg (by omega), if_neg (by omega)]

/-- Witness for C5's amended theorem at a concrete three-hand observation. -/
theorem c5_more_than_two_hands_amended_witness :
    2 < ([zeroHand, zeroHand, zeroHand] : List Hand).length ∧
      resolve ⟨[], [], [], []⟩ red 10 10 [zeroHand, zeroHand, zeroHand] =
        { mode := AppState.IDLE, activeText := none, targetColor := red,
          rotationSpeed := 0.2, diffusion := 1.0 } :=
  ⟨by decide,
    c5_more_than_two_hands_amended ⟨[], [], [], []⟩ red 10 10
      [zeroHand, zeroHand, zeroHand] (by decide) (by decide)⟩

/-- A valid hand whose wrist and index-MCP landmarks coincide (palm size 0)
while thumb tip and pinky tip are distinct (spread 1). -/
def degenerateHand : Hand :=
  (List.range 21).map (fun i => if i = 4 then ⟨1, 0, 0⟩ else ⟨0, 0, 0⟩)

/-- Claim C8, counterexample. There is *no* epsilon floor on the denominator
of the openness ratio: no positive `ε` makes the computed ratio equal to
`spread / max(palmSize, ε)` for all valid hands, because a hand with
coincident wrist and index-MCP landmarks has palm size exactly `0` and the
division is performed with that zero denominator. -/
theorem c8_no_epsilon_floor_counterexample :
    ¬ ∃ ε : ℝ, 0 < ε ∧ ∀ hand : Hand, hand.length = 21 →
        spreadOverPalm hand = handSpread hand / max (palmSize hand) ε := by
  rintro ⟨ε, hε, hall⟩
  have hdeg := hall degenerateHand (by decide)
  have hpalm : palmSize degenerateHand = 0 := by
    have h2 : palmSize2 degenerateHand = 0 := by
      simp only [palmSize2]
      rw [show nth degenerateHand 0 = ⟨0, 0, 0⟩ from rfl,
          show nth degenerateHand 5 = ⟨0, 0, 0⟩ from rfl]
      norm_num
    simp [palmSize, h2]
  have hspread : handSpread degenerateHand = 1 := by
    have h2 : spread2 degenerateHand = 1 := by
      simp only [spread2]
      rw [show nth degenerateHand 4 = ⟨1, 0, 0⟩ from rfl,
          show nth degenerateHand 20 = ⟨0, 0, 0⟩ from rfl]
      norm_num
    simp [handSpread, h2]
  unfold spreadOverPalm at hdeg
  rw [hpalm, hspread, div_zero, max_eq_right hε.le] at hdeg
  exact absurd hdeg.symm (one_div_ne_zero hε.ne')

/-- Claim C8, amended. The openness ratio is computed as `spread / palmSize`
with no epsilon floor: for every valid hand whose wrist and index-MCP
landmarks coincide (in x and y), the palm size is exactly `0` and the
division is performed with the zero denominator (a non-finite value under
JS float semantics; the only `|| 0.1` guard in the frame loop is on the
flee-distance, not here). -/
theorem c8_unguarded_division_amended (hand : Hand) (h : hand.length = 21)
    (hx : (nth hand 0).x = (nth hand 5).x) (hy : (nth hand 0).y = (nth hand 5).y) :
    palmSize hand = 0 ∧ spreadOverPalm hand = handSpread hand / 0 := by
  have h2 : palmSize2 hand = 0 := by rw [palmSize2, hx, hy]; ring
  have hp : palmSize hand = 0 := by simp [palmSize, h2]
  refine ⟨hp, ?_⟩
  show handSpread hand / palmSize hand = handSpread hand / 0
  rw [hp]

/-- Witness for C8's amended theorem at the concrete degenerate hand. -/
theorem c8_unguarded_division_amended_witness :
    degenerateHand.length = 21 ∧
      (nth degenerateHand 0).x = (nth degenerateHand 5).x ∧
      (nth degenerateHand 0).y = (nth degenerateHand 5).y ∧
      palmSize degenerateHand = 0 ∧
      spreadOverPalm degenerateHand = handSpread degenerateHand / 0 := by
  refine ⟨by decide, rfl, rfl, ?_, ?_⟩
  · exact (c8_unguarded_division_amended degenerateHand (by decide) rfl rfl).1
  · exact (c8_unguarded_division_amended degenerateHand (by decide) rfl rfl).2

/-! ### Glyph point-cloud generator (`generateTextParticles`, source lines 50-95)

Canvas rasterization is an external collaborator; the pixel scan is
embedded with the thresholded brightness predicate `bright x y` standing
for `data[(y * width + x) * 4] > 128` and the `Math.random()` draws passed
in as streams `uX`, `uY`, `uZ` of values in `[0, 1)`. -/

/-- The sampled grid positions of one axis: `for (v = 0; v < limit; v += density)`. -/
def gridCoords (limit density : ℕ) : List ℕ :=
  (List.range limit).filter (fun v => v % density == 0)

/-- The per-axis pixel jitter `(Math.random() - 0.5) * density * 0.3`. -/
def pixelJitter (u : ℚ) (density : ℕ) : ℚ :=
  (u - 0.5) * density * 0.3

/-- One emitted point of the generator: jittered pixel coordinates mapped
into world space (`x` linearly onto a 20-wide band, `y` flipped and
aspect-corrected by `height/width`) with the random depth jitter
`(Math.random() - 0.5) * 0.2`. -/
def samplePoint (width height density : ℕ) (ux uy uz : ℚ) (x y : ℕ) : ℚ × ℚ × ℚ :=
  let jitterX := pixelJitter ux density
  let jitterY := pixelJitter uy density
  let nX := (((x : ℚ) + jitterX) / width - 0.5) * 20
  let nY := -(((y : ℚ) + jitterY) / height - 0.5) * 20 * ((height : ℚ) / width)
  let nZ := (uz - 0.5) * 0.2
  (nX, nY, nZ)

/-- `generateTextParticles`: scan the bitmap row-major with stride
`density`, emitting one jittered world-space point per bright pixel. -/
def generateTextParticles (bright : ℕ → ℕ → Bool) (uX uY uZ : ℕ → ℕ → ℚ)
    (width height density : ℕ) : Cloud :=
  (gridCoords height density).flatMap (fun y =>
    (gridCoords width density).filterMap (fun x =>
      if bright x y then
        some (samplePoint width height density (uX x y) (uY x y) (uZ x y) x y)
      else none))

theorem pixelJitter_abs_le (u : ℚ) (d : ℕ) (h0 : 0 ≤ u) (h1 : u < 1) :
    |pixelJitter u d| ≤ 0.15 * d := by
  unfold pixelJitter
  have habs : |u - 0.5| ≤ 0.5 := abs_le.mpr ⟨by linarith, by linarith⟩
  have hd : (0 : ℚ) ≤ d := Nat.cast_nonneg d
  calc |(u - 0.5) * d * 0.3| = |u - 0.5| * d * 0.3 := by
        rw [abs_mul, abs_mul, abs_of_nonneg hd,
          abs_of_nonneg (by norm_num : (0 : ℚ) ≤ 0.3)]
    _ ≤ 0.5 * d * 0.3 :=
        mul_le_mul_of_nonneg_right (mul_le_mul_of_nonneg_right habs hd) (by norm_num)
    _ = 0.15 * d := by ring

/-- Bounds on one emitted sample: the claimed `[-10, 10]` band widened by
the jitter slack `3·density/width` (and its aspect-corrected analogue),
with the depth strictly inside `[-0.1, 0.1]`. -/
theorem samplePoint_bounds (width height density : ℕ) (hw : 0 < width)
    (hh : 0 < height) (ux uy uz : ℚ) (hux0 : 0 ≤ ux) (hux1 : ux < 1)
    (huy0 : 0 ≤ uy) (huy1 : uy < 1) (huz0 : 0 ≤ uz) (huz1 : uz < 1)
    (x y : ℕ) (hx : x < width) (hy : y < height) :
    |(samplePoint width height density ux uy uz x y).1| ≤ 10 + 3 * density / width ∧
    |(samplePoint width height density ux uy uz x y).2.1| ≤
      10 * ((height : ℚ) / width) + 3 * density / width ∧
    |(samplePoint width height density ux uy uz x y).2.2| ≤ 0.1 := by
  have hw' : (0 : ℚ) < width := by exact_mod_cast hw
  have hh' : (0 : ℚ) < height := by exact_mod_cast hh
  have hx' : (x : ℚ) ≤ (width : ℚ) - 1 := by
    have : (x : ℚ) + 1 ≤ width := by exact_mod_cast hx
    linarith
  have hy' : (y : ℚ) ≤ (height : ℚ) - 1 := by
    have : (y : ℚ) + 1 ≤ height := by exact_mod_cast hy
    linarith
  have hx0 : (0 : ℚ) ≤ x := Nat.cast_nonneg x
  have hy0 : (0 : ℚ) ≤ y := Nat.cast_nonneg y
  have hjx := abs_le.mp (pixelJitter_abs_le ux density hux0 hux1)
  have hjy := abs_le.mp (pixelJitter_abs_le uy density huy0 huy1)
  refine ⟨?_, ?_, ?_⟩
  · show |(((x : ℚ) + pixelJitter ux density) / width - 0.5) * 20| ≤ 10 + 3 * density / width
    have e1 : (((x : ℚ) + pixelJitter ux density) / width - 0.5) * 20 =
        (20 * ((x : ℚ) + pixelJitter ux density) - 10 * width) / width := by
      field_simp
      ring
    have e2 : 10 + 3 * (density : ℚ) / width = (10 * width + 3 * density) / width := by
      field_simp
    rw [e1, abs_le]
    constructor
    · rw [e2, neg_le, ← neg_div, div_le_div_iff_of_pos_right hw']
      linarith [hjx.1]
    · rw [e2, div_le_div_iff_of_pos_right hw']
      linarith [hjx.2]
  · show |-((((y : ℚ) + pixelJitter uy density) / height - 0.5)) * 20 * ((height : ℚ) / width)| ≤
      10 * ((height : ℚ) / width) + 3 * density / width
    have e1 : -((((y : ℚ) + pixelJitter uy density) / height - 0.5)) * 20 * ((height : ℚ) / width) =
        (10 * height - 20 * ((y : ℚ) + pixelJitter uy density)) / width := by
      field_simp
      ring
    have e2 : 10 * ((height : ℚ) / width) + 3 * (density : ℚ) / width =
        (10 * height + 3 * density) / width := by
      field_simp
    rw [e1, abs_le]
    constructor
    · rw [e2, neg_le, ← neg_div, div_le_div_iff_of_pos_right hw']
      linarith [hjy.2]
    · rw [e2, div_le_div_iff_of_pos_right hw']
      linarith [hjy.1]
  · show |(uz - 0.5) * 0.2| ≤ 0.1
    rw [abs_le]
    constructor <;> nlinarith

/-- The bright-pixel predicate of the C7 counterexample: only the
top-left sampled pixel is lit. -/
def brightTopLeft : ℕ → ℕ → Bool := fun x y => x == 0 && y == 0

/-- The constant random stream drawing `0` (a value `Math.random()` can
produce). -/
def uZero : ℕ → ℕ → ℚ := fun _ _ => 0

/-- Claim C7, counterexample. With width 4, height 2, density 2 and random
draws at `0` (so pixel jitter at its negative extreme `-0.15·density`), the
single emitted point has `X = -23/2 < -10` — outside the claimed
`[-10, 10]` band — and `Y = 13/2`, outside the claimed aspect-corrected
bound `10 · (height/width) = 5`. -/
theorem c7_generator_bounds_counterexample :
    generateTextParticles brightTopLeft uZero uZero uZero 4 2 2 =
        [(-23 / 2, 13 / 2, -1 / 10)] ∧
      ((-23 / 2 : ℚ) < -10) ∧ (10 * ((2 : ℚ) / 4) < 13 / 2) := by
  refine ⟨?_, by norm_num, by norm_num⟩
  have hgrid2 : gridCoords 2 2 = [0] := by decide
  have hgrid4 : gridCoords 4 2 = [0, 2] := by decide
  rw [generateTextParticles, hgrid2, hgrid4]
  simp [brightTopLeft, uZero, samplePoint, pixelJitter]
  norm_num

/-- Claim C7, amended. Every emitted point of `generate` lies in the claimed
band *widened by the jitter slack*: `|X| ≤ 10 + 3·density/width`,
`|Y| ≤ 10·(height/width) + 3·density/width`, and `Z ∈ [-0.1, 0.1]` exactly
as claimed; the per-axis pixel jitter is bounded in amplitude by
`0.15·density` as claimed. -/
theorem c7_generator_bounds_amended (bright : ℕ → ℕ → Bool) (uX uY uZ : ℕ → ℕ → ℚ)
    (width height density : ℕ) (hw : 0 < width) (hh : 0 < height)
    (hux : ∀ x y, 0 ≤ uX x y ∧ uX x y < 1) (huy : ∀ x y, 0 ≤ uY x y ∧ uY x y < 1)
    (huz : ∀ x y, 0 ≤ uZ x y ∧ uZ x y < 1) :
    (∀ x y, |pixelJitter (uX x y) density| ≤ 0.15 * density ∧
            |pixelJitter (uY x y) density| ≤ 0.15 * density) ∧
    ∀ p ∈ generateTextParticles bright uX uY uZ width height density,
      |p.1| ≤ 10 + 3 * density / width ∧
      |p.2.1| ≤ 10 * ((height : ℚ) / width) + 3 * density / width ∧
      |p.2.2| ≤ 0.1 := by
  refine ⟨fun x y => ⟨pixelJitter_abs_le (uX x y) density (hux x y).1 (hux x y).2,
    pixelJitter_abs_le (uY x y) density (huy x y).1 (huy x y).2⟩, ?_⟩
  intro p hp
  rw [generateTextParticles, List.mem_flatMap] at hp
  obtain ⟨y, hymem, hxmem⟩ := hp
  rw [List.mem_filterMap] at hxmem
  obtain ⟨x, hxg, hpx⟩ := hxmem
  have hy : y < height := by
    have := List.mem_filter.mp hymem
    exact List.mem_range.mp this.1
  have hx : x < width := by
    have := List.mem_filter.mp hxg
    exact List.mem_range.mp this.1
  rcases hb : bright x y with _ | _
  · rw [hb] at hpx
    simp at hpx
  · rw [hb] at hpx
    simp only [if_pos] at hpx
    rw [← Option.some_inj.mp hpx]
    exact samplePoint_bounds width height density hw hh (uX x y) (uY x y) (uZ x y)
      (hux x y).1 (hux x y).2 (huy x y).1 (huy x y).2 (huz x y).1 (huz x y).2 x y hx hy

/-- The constant random stream drawing `1/2` (zero jitter). -/
def uHalf : ℕ → ℕ → ℚ := fun _ _ => 1 / 2

/-- The everywhere-bright pixel predicate. -/
def brightAll : ℕ → ℕ → Bool := fun _ _ => true

/-- Witness for C7's amended theorem at a concrete 2×2 bitmap with density 1
and centred random draws. -/
theorem c7_generator_bounds_amended_witness :
    (0 < 2) ∧
    ((∀ x y, |pixelJitter (uHalf x y) 1| ≤ 0.15 * (1 : ℕ) ∧
             |pixelJitter (uHalf x y) 1| ≤ 0.15 * (1 : ℕ)) ∧
      ∀ p ∈ generateTextParticles brightAll uHalf uHalf uHalf 2 2 1,
        |p.1| ≤ 10 + 3 * (1 : ℕ) / ((2 : ℕ) : ℚ) ∧
        |p.2.1| ≤ 10 * (((2 : ℕ) : ℚ) / ((2 : ℕ) : ℚ)) + 3 * (1 : ℕ) / ((2 : ℕ) : ℚ) ∧
        |p.2.2| ≤ 0.1) :=
  ⟨by decide,
    c7_generator_bounds_amended brightAll uHalf uHalf uHalf 2 2 1 (by decide) (by decide)
      (fun x y => by constructor <;> norm_num [uHalf])
      (fun x y => by constructor <;> norm_num [uHalf])
      (fun x y => by constructor <;> norm_num [uHalf])⟩

/-! ### Particle integrator (`useFrame` per-particle body, lines 211-318)

The per-particle target computation, the per-point repulsion fold and the
holding-mode flee term as pure functions.  Particle positions and targets
live in `ℝ`; the three `Math.random()` draws of the holding-mode chaos are
passed in as `rnd` with components in `[0, 1)`. -/

/-- A 3-D vector of the particle state arrays. -/
structure Vec3 where
  x : ℝ
  y : ℝ
  z : ℝ

/-- The glyph-cloud point a particle of index `i` targets:
`activeTextTarget[(i % cloudPointCount) * 3 ..]`, i.e. the
`(i mod length)`-th triple of the flat buffer. -/
def cloudPoint (cloud : Cloud) (i : ℕ) : ℚ × ℚ × ℚ :=
  cloud.getD (i % cloud.length) (0, 0, 0)

/-- Text-mode target (source lines 220-229): the wrapped cloud point plus
the per-index sinusoidal spread of amplitude `0.04`. -/
noncomputable def textTarget (cloud : Cloud) (i : ℕ) : Vec3 :=
  { x := ((cloudPoint cloud i).1 : ℝ) + Real.sin ((i : ℝ) * 0.5) * 0.04
    y := ((cloudPoint cloud i).2.1 : ℝ) + Real.cos ((i : ℝ) * 0.9) * 0.04
    z := ((cloudPoint cloud i).2.2 : ℝ) + Real.sin ((i : ℝ) * 1.2) * 0.04 }

/-- Sphere/cloud-mode target (source lines 231-258): the home position
scaled by the diffusion, plus time-and-index sinusoidal ambient noise, and
— when holding — the high-frequency morph noise (keyed on the flat buffer
indices `i*3`, `i*3+1`, `i*3+2`) plus per-frame random chaos. -/
noncomputable def sphereTarget (home : Vec3) (diffusion : ℝ) (isHolding : Bool)
    (rnd : Vec3) (time : ℝ) (i : ℕ) : Vec3 :=
  let baseTx := home.x * diffusion
  let baseTy := home.y * diffusion
  let baseTz := home.z * diffusion
  let noiseX := Real.sin (time * 2 + (i : ℝ) * 0.1) * 0.2
  let noiseY := Real.cos (time * 2 + (i : ℝ) * 0.1) * 0.2
  let noiseZ : ℝ := 0
  if isHolding then
    let ix : ℕ := i * 3
    let iy : ℕ := i * 3 + 1
    let iz : ℕ := i * 3 + 2
    { x := baseTx + (noiseX + Real.sin (time * 8.0 + (iy : ℝ) * 0.1) * 2.0 + (rnd.x - 0.5) * 1.5)
      y := baseTy + (noiseY + Real.cos (time * 8.0 + (ix : ℝ) * 0.1) * 2.0 + (rnd.y - 0.5) * 1.5)
      z := baseTz + (noiseZ + Real.sin (time * 8.0 + (iz : ℝ) * 0.1) * 2.0 + (rnd.z - 0.5) * 1.5) }
  else
    { x := baseTx + noiseX, y := baseTy + noiseY, z := baseTz + noiseZ }

/-- The per-particle target before force application (source line 219): the
text branch is taken exactly when the mode is text mode *and* the active
cloud is present *and* non-empty; otherwise the sphere/cloud branch runs. -/
noncomputable def particleTarget (mode : AppState) (cloud : Option Cloud) (home : Vec3)
    (diffusion : ℝ) (isHolding : Bool) (rnd : Vec3) (time : ℝ) (i : ℕ) : Vec3 :=
  match mode, cloud with
  | AppState.TEXT_MODE, some c =>
    if 0 < c.length then textTarget c i
    else sphereTarget home diffusion isHolding rnd time i
  | _, _ => sphereTarget home diffusion isHolding rnd time i

/-- Claim C6, counterexample. The text-mode jitter is *not* a function of the
elapsed time: at a concrete cloud and particle index the pre-force target
is identical at elapsed times `0` and `99`. -/
theorem c6_text_jitter_counterexample :
    particleTarget AppState.TEXT_MODE (some [(1, 2, 3)]) ⟨0, 0, 0⟩ 1 false ⟨0, 0, 0⟩ 0 7 =
      particleTarget AppState.TEXT_MODE (some [(1, 2, 3)]) ⟨0, 0, 0⟩ 1 false ⟨0, 0, 0⟩ 99 7 :=
  rfl

/-- Claim C6, amended. In text mode with a non-empty cloud of `P` points, the
per-particle pre-force target equals the cloud's `(i mod P)`-th point plus
a small deterministic sinusoidal jitter that is a function of the particle
index alone — the same for every elapsed time. -/
theorem c6_text_target_amended (c : Cloud) (hc : c ≠ []) (home : Vec3) (diffusion : ℝ)
    (isHolding : Bool) (rnd : Vec3) (time : ℝ) (i : ℕ) :
    particleTarget AppState.TEXT_MODE (some c) home diffusion isHolding rnd time i =
      { x := ((c.getD (i % c.length) (0, 0, 0)).1 : ℝ) + Real.sin ((i : ℝ) * 0.5) * 0.04
        y := ((c.getD (i % c.length) (0, 0, 0)).2.1 : ℝ) + Real.cos ((i : ℝ) * 0.9) * 0.04
        z := ((c.getD (i % c.length) (0, 0, 0)).2.2 : ℝ) + Real.sin ((i : ℝ) * 1.2) * 0.04 } := by
  show (if 0 < c.length then textTarget c i
    else sphereTarget home diffusion isHolding rnd time i) = _
  rw [if_pos (List.length_pos.mpr hc)]
  rfl

/-- Witness for C6's amended theorem at a concrete one-point cloud. -/
theorem c6_text_target_amended_witness :
    ([(1, 2, 3)] : Cloud) ≠ [] ∧
      particleTarget AppState.TEXT_MODE (some [(1, 2, 3)]) ⟨0, 0, 0⟩ 1 false ⟨0, 0, 0⟩ 5 0 =
        { x := ((([(1, 2, 3)] : Cloud).getD (0 % ([(1, 2, 3)] : Cloud).length) (0, 0, 0)).1 : ℝ) +
            Real.sin ((0 : ℕ) * 0.5) * 0.04
          y := ((([(1, 2, 3)] : Cloud).getD (0 % ([(1, 2, 3)] : Cloud).length) (0, 0, 0)).2.1 : ℝ) +
            Real.cos ((0 : ℕ) * 0.9) * 0.04
          z := ((([(1, 2, 3)] : Cloud).getD (0 % ([(1, 2, 3)] : Cloud).length) (0, 0, 0)).2.2 : ℝ) +
            Real.sin ((0 : ℕ) * 1.2) * 0.04 } :=
  ⟨by decide, c6_text_target_amended [(1, 2, 3)] (by decide) ⟨0, 0, 0⟩ 1 false ⟨0, 0, 0⟩ 5 0⟩

/-- Claim C9. A text-trigger frame whose glyph cloud is missing (`null`) or
empty (a zero-length generated buffer) falls back to the ambient
sphere-mode target for that frame; the per-particle computation stays total
(no indexing into the empty cloud). -/
theorem c9_empty_cloud_falls_back (cloud : Option Cloud) (home : Vec3) (diffusion : ℝ)
    (isHolding : Bool) (rnd : Vec3) (time : ℝ) (i : ℕ)
    (h : cloud = none ∨ cloud = some []) :
    particleTarget AppState.TEXT_MODE cloud home diffusion isHolding rnd time i =
      sphereTarget home diffusion isHolding rnd time i := by
  rcases h with h | h <;> subst h <;> rfl

/-- Witness for C9 at the missing (`none`) cloud. -/
theorem c9_empty_cloud_falls_back_witness :
    ((none : Option Cloud) = none ∨ (none : Option Cloud) = some []) ∧
      particleTarget AppState.TEXT_MODE none ⟨0, 0, 0⟩ 1 false ⟨0, 0, 0⟩ 0 0 =
        sphereTarget ⟨0, 0, 0⟩ 1 false ⟨0, 0, 0⟩ 0 0 :=
  ⟨Or.inl rfl,
    c9_empty_cloud_falls_back none ⟨0, 0, 0⟩ 1 false ⟨0, 0, 0⟩ 0 0 (Or.inl rfl)⟩

/-- A transient 2-D interaction point (projected fingertip or palm
centre). -/
structure IPoint where
  x : ℚ
  y : ℚ

/-- The six interaction points one hand contributes (source lines 104-116):
the tip landmarks 4, 8, 12, 16, 20 and the palm-centre landmark 9,
mirror-projected into viewport space. -/
def handInteractionPoints (vw vh : ℚ) (hand : Hand) : List IPoint :=
  [4, 8, 12, 16, 20, 9].map (fun idx =>
    { x := (0.5 - (nth hand idx).x) * vw, y := (0.5 - (nth hand idx).y) * vh })

/-- All interaction points of the frame: six per visible hand, for *every*
hand in the observation (`hands.forEach`). -/
def interactionPoints (vw vh : ℚ) (hands : List Hand) : List IPoint :=
  hands.flatMap (handInteractionPoints vw vh)

theorem interactionPoints_length (vw vh : ℚ) (hands : List Hand) :
    (interactionPoints vw vh hands).length = 6 * hands.length := by
  unfold interactionPoints
  induction hands with
  | nil => rfl
  | cons a l ih =>
    rw [List.flatMap_cons, List.length_append, ih]
    simp [handInteractionPoints]
    ring

/-- The mode-dependent repulsion radius and force multiplier (source lines
272-282): text mode `1.5 / 8.0`, holding `8.0 / 15.0`, default `3.5 / 3.0`. -/
def forceParams (mode : AppState) (isHolding : Bool) : ℚ × ℚ :=
  if mode = AppState.TEXT_MODE then (1.5, 8.0)
  else if isHolding then (8.0, 15.0)
  else (3.5, 3.0)

/-- One interaction point's repulsion (source lines 265-293): measured from
the particle's *current* position, displacing the target by
`d * (1 - distSq/radiusSq) * forceMulti` when inside the radius, and by
nothing at or beyond it. -/
noncomputable def repulse (mode : AppState) (isHolding : Bool) (pos : Vec3)
    (t : Vec3) (p : IPoint) : Vec3 :=
  let dx := pos.x - (p.x : ℝ)
  let dy := pos.y - (p.y : ℝ)
  let dz := pos.z - 0
  let distSq := dx * dx + dy * dy + dz * dz
  let radius : ℝ := ((forceParams mode isHolding).1 : ℝ)
  let forceMulti : ℝ := ((forceParams mode isHolding).2 : ℝ)
  let radiusSq := radius * radius
  if distSq < radiusSq then
    let force := 1.0 - distSq / radiusSq
    { x := t.x + dx * force * forceMulti
      y := t.y + dy * force * forceMulti
      z := t.z + dz * force * forceMulti }
  else t

/-- The holding-mode global flee (source lines 297-310): radial push from
the hand centre plus the sine-signed swirl; the distance denominator is
floored at `0.1` when zero (the JS `|| 0.1`). -/
noncomputable def fleeStep (isHolding : Bool) (handCenter : IPoint) (pos : Vec3)
    (time : ℝ) (t : Vec3) : Vec3 :=
  if isHolding then
    let dx := pos.x - (handCenter.x : ℝ)
    let dy := pos.y - (handCenter.y : ℝ)
    let d0 := Real.sqrt (dx * dx + dy * dy)
    let dist := if d0 = 0 then 0.1 else d0
    let spiralX := -dy
    let spiralY := dx
    { x := t.x + dx / dist * 8.0 + spiralX / dist * 4.0 * Real.sin (time * 5)
      y := t.y + dy / dist * 8.0 + spiralY / dist * 4.0 * Real.sin (time * 5)
      z := t.z }
  else t

/-- The force-application block (source lines 263-311): when any
interaction point exists, fold the per-point repulsion over *all* of them
(in every mode), then apply the holding flee. -/
noncomputable def forceBlock (mode : AppState) (isHolding : Bool) (points : List IPoint)
    (handCenter : IPoint) (pos : Vec3) (time : ℝ) (t : Vec3) : Vec3 :=
  if 0 < points.length then
    fleeStep isHolding handCenter pos time (points.foldl (repulse mode isHolding pos) t)
  else t

/-- Claim C10. Every visible hand contributes exactly six interaction points —
the tip landmarks 4, 8, 12, 16, 20 and the palm-centre landmark 9 — so the
frame has `6 × handCount` of them; and in *every* mode the force block
folds the per-point repulsion over all of these points (hands beyond the
second, which mode selection ignores, are included). -/
theorem c10_interaction_forces (vw vh : ℚ) (hands : List Hand) (mode : AppState)
    (isHolding : Bool) (handCenter : IPoint) (pos : Vec3) (time : ℝ) (t : Vec3)
    (hne : hands ≠ []) :
    (interactionPoints vw vh hands).length = 6 * hands.length ∧
    (∀ h ∈ hands, handInteractionPoints vw vh h =
      [⟨(0.5 - (nth h 4).x) * vw, (0.5 - (nth h 4).y) * vh⟩,
       ⟨(0.5 - (nth h 8).x) * vw, (0.5 - (nth h 8).y) * vh⟩,
       ⟨(0.5 - (nth h 12).x) * vw, (0.5 - (nth h 12).y) * vh⟩,
       ⟨(0.5 - (nth h 16).x) * vw, (0.5 - (nth h 16).y) * vh⟩,
       ⟨(0.5 - (nth h 20).x) * vw, (0.5 - (nth h 20).y) * vh⟩,
       ⟨(0.5 - (nth h 9).x) * vw, (0.5 - (nth h 9).y) * vh⟩]) ∧
    forceBlock mode isHolding (interactionPoints vw vh hands) handCenter pos time t =
      fleeStep isHolding handCenter pos time
        ((interactionPoints vw vh hands).foldl (repulse mode isHolding pos) t) := by
  have hlen := interactionPoints_length vw vh hands
  refine ⟨hlen, fun h _ => rfl, ?_⟩
  have hp : 0 < (interactionPoints vw vh hands).length := by
    rw [hlen]
    have := List.length_pos.mpr hne
    omega
  unfold forceBlock
  rw [if_pos hp]

/-- Witness for C10 at a concrete three-hand observation. -/
theorem c10_interaction_forces_witness :
    ([zeroHand, zeroHand, zeroHand] : List Hand) ≠ [] ∧
      (interactionPoints 1 1 [zeroHand, zeroHand, zeroHand]).length =
        6 * ([zeroHand, zeroHand, zeroHand] : List Hand).length ∧
      forceBlock AppState.IDLE false (interactionPoints 1 1 [zeroHand, zeroHand, zeroHand])
          ⟨0, 0⟩ ⟨0, 0, 0⟩ 0 ⟨0, 0, 0⟩ =
        fleeStep false ⟨0, 0⟩ ⟨0, 0, 0⟩ 0
          ((interactionPoints 1 1 [zeroHand, zeroHand, zeroHand]).foldl
            (repulse AppState.IDLE false ⟨0, 0, 0⟩) ⟨0, 0, 0⟩) := by
  have hmain := c10_interaction_forces 1 1 [zeroHand, zeroHand, zeroHand] AppState.IDLE
    false ⟨0, 0⟩ ⟨0, 0, 0⟩ 0 ⟨0, 0, 0⟩ (by simp)
  exact ⟨by simp, hmain.1, hmain.2.2⟩

end Syf
